import Mathlib

/-!
Shallow embedding of the PyPD penetrator module (classes/penetrator.py) and
constitutive-law module (pypd/constitutive_law.py), together with theorems
checking the documented behaviour against the code.

Quantities the Python code manipulates as floats are embedded as rationals
where the relevant formulas are rational, and as real numbers where they
involve pi or square roots.  Array-valued bond data is embedded as lists of
rationals.
-/

/-- Embeds penetrator.py line 23: search_radius = radius * 1.25. -/
def search_radius (radius : ℚ) : ℚ := radius * (5/4)

/-- Embeds the distance computed in Penetrator._build_family (line 29):
np.sqrt(np.sum(x_i - centre) ** 2).  The square sits on the SUM of the
coordinate differences, so the value is the absolute value of that sum, not
the Euclidean norm of the difference vector. -/
def code_distance (xi centre : List ℚ) : ℚ :=
  |(List.zipWith (fun a b => a - b) xi centre).sum|

/-- Embeds Penetrator._build_family: for i in range(n_nodes), append i to
the family when the computed distance is at most the search radius. -/
def build_family (xs : List (List ℚ)) (centre : List ℚ) (sr : ℚ) : List ℕ :=
  (List.range xs.length).filter (fun i => code_distance (xs.getD i []) centre ≤ sr)

/-- Family built with the Euclidean criterion the specification states:
include i exactly when the Euclidean distance from xs[i] to centre is at
most sr.  For sr ≥ 0 this is equivalent to comparing the squared distance
with sr^2, which keeps the definition rational and decidable. -/
def euclid_family (xs : List (List ℚ)) (centre : List ℚ) (sr : ℚ) : List ℕ :=
  (List.range xs.length).filter
    (fun i =>
      ((List.zipWith (fun a b => a - b) (xs.getD i []) centre).map (fun d => d^2)).sum ≤ sr^2)

/-- Clamps a rational to the unit interval. -/
def clamp01 (x : ℚ) : ℚ := max 0 (min 1 x)

/-- Cubic Hermite ease 3 t^2 - 2 t^3. -/
def hermite (t : ℚ) : ℚ := 3*t^2 - 2*t^3

/-- Modelled from the spec: solver.calculate.smooth_step_data is imported by
penetrator.py but is not under src/.  The spec describes it as the cubic
Hermite ease f(t) = 3 t^2 - 2 t^3 on the normalised abscissa
t = (i - x_start)/(x_end - x_start), clamped to [0,1], interpolating from
y_start at i = x_start to y_end at i = x_end; a zero-length abscissa range
must not divide by zero (rational division by zero is 0 here, giving
y_start). -/
def smooth_step_data (i x_start x_end y_start y_end : ℚ) : ℚ :=
  y_start + (y_end - y_start) * hermite (clamp01 ((i - x_start)/(x_end - x_start)))

/-- Embeds the two-argument Penetrator.update_penetrator_position
(penetrator.py lines 35-42): centre + smooth_step_data(i, 0, n, 0, 1e-4),
numpy broadcasting the scalar over the centre vector. -/
def update_penetrator_position (centre : List ℚ) (i n : ℚ) : List ℚ :=
  centre.map (fun xc => xc + smooth_step_data i 0 n 0 (1/10000))

/-- Python-level errors the embedded calls can surface. -/
inductive PyErr where
  | typeError
  | notImplementedError
  | zeroDivisionError
  | attributeError
deriving DecidableEq

/-- Runtime values flowing through the embedded Python methods.  A
Penetrator instance is represented by the attributes the claims touch:
centre, radius and the precomputed family. -/
inductive PVal where
  | num (q : ℚ)
  | vec (v : List ℚ)
  | mat (m : List (List ℚ))
  | indices (l : List ℕ)
  | pen (centre : List ℚ) (radius : ℚ) (family : List ℕ)
  | noneV
deriving DecidableEq

/-- Names of the methods occurring in the embedded class bodies. -/
inductive MethodName where
  | initializer
  | buildFam
  | updatePos
  | calcForce
  | calcStiffness
  | calcDamage
deriving DecidableEq

/-- A Python function object: its declared parameter count (self counts
only when it is declared) and its body. -/
structure PyMethod where
  params : ℕ
  body : List PVal → Except PyErr PVal

/-- Resolves a name in a class namespace built by excecuting the class body
top to bottom: a later def with the same name overwrites an earlier one,
exactly as assignment into the class dict does. -/
def lookupMethod (defs : List (MethodName × PyMethod)) (name : MethodName) : Option PyMethod :=
  defs.foldl (fun acc p => if p.1 = name then some p.2 else acc) none

/-- Calls a function object with an explicit argument list; Python raises
TypeError when the argument count does not match the declared parameters. -/
def callMethod (m : PyMethod) (args : List PVal) : Except PyErr PVal :=
  if args.length = m.params then m.body args else .error .typeError

/-- Calls obj.name(args): resolves the attribute in the class namespace and
prepends the receiver to the argument list. -/
def callBound (defs : List (MethodName × PyMethod)) (name : MethodName)
    (self : PVal) (args : List PVal) : Except PyErr PVal :=
  match lookupMethod defs name with
  | none => .error .attributeError
  | some m => callMethod m (self :: args)

/-- Body of the two-argument update_penetrator_position def (lines 35-42). -/
def updatePosBody : List PVal → Except PyErr PVal
  | [.pen c _ _, .num i, .num n] => .ok (.vec (update_penetrator_position c i n))
  | _ => .error .typeError

/-- Body of the later parameter-less update_penetrator_position def (lines
61-65); its body is pass, returning None. -/
def updatePosBodyLate : List PVal → Except PyErr PVal
  | _ => .ok .noneV

/-- The two defs named update_penetrator_position in source order; class
attribute lookup resolves the name to the later one. -/
def penetratorUpdateDefs : List (MethodName × PyMethod) :=
  [(.updatePos, ⟨3, updatePosBody⟩), (.updatePos, ⟨0, updatePosBodyLate⟩)]

/-- Modelled from the spec: solver.calculate.calculate_contact_force is
imported by penetrator.py but is not under src/.  The spec fixes only that
it returns a force array sized to the full particle set whose entries
outside the family are zero; no claim constrains the in-family values, so
the model returns the zero array, which satisfies that contract.  The
displacement, velocity, density, cell-volume and dt arguments play no role
in any claim and are omitted from the value model. -/
def calculate_contact_force (family : List ℕ) (radius : ℚ) (position : List ℚ)
    (x : List (List ℚ)) : List (List ℚ) :=
  x.map (fun row => row.map (fun _ => 0))

/-- Applies the contact kernel once the receiver, the particle set and the
updated position have been produced. -/
def contactForceVal (self particles pos : PVal) : Except PyErr PVal :=
  match self, particles, pos with
  | .pen _ r fam, .mat xs, .vec p => .ok (.mat (calculate_contact_force fam r p xs))
  | _, _, _ => .error .typeError

/-- Body of calculate_penetrator_force (lines 44-59): it first calls
self.update_penetrator_position(i_time_step, simulation.n_time_steps)
through the class namespace — where the later def shadows the earlier one —
and then hands the position to the contact kernel.  The simulation object
is modelled by its n_time_steps field. -/
def calcForceBody : List PVal → Except PyErr PVal
  | [self, particles, sim, iStep] =>
      (callBound penetratorUpdateDefs .updatePos self [iStep, sim]).bind
        (fun pos => contactForceVal self particles pos)
  | _ => .error .typeError

/-- Body of _build_family (lines 26-33). -/
def buildFamBody : List PVal → Except PyErr PVal
  | [.pen c r _, .mat xs] => .ok (.indices (build_family xs c (search_radius r)))
  | _ => .error .typeError

/-- The Penetrator class body in source order: __init__, _build_family, the
two-argument update_penetrator_position, calculate_penetrator_force and the
final parameter-less update_penetrator_position.  __init__ takes (self, ID,
centre, radius, particles); attribute assignment lies outside the value
model, so its body just returns None as the Python method does. -/
def penetratorClassBody : List (MethodName × PyMethod) :=
  [(.initializer, ⟨5, fun _ => .ok .noneV⟩),
   (.buildFam, ⟨2, buildFamBody⟩),
   (.updatePos, ⟨3, updatePosBody⟩),
   (.calcForce, ⟨4, calcForceBody⟩),
   (.updatePos, ⟨0, updatePosBodyLate⟩)]

/-- The ConstitutiveLaw class body (constitutive_law.py lines 16-70):
__init__ declared with no parameters at all, _calculate_bond_stiffness
(self, material, particles — its numeric derivation is embedded separately
over the reals below), and calculate_bond_damage, declared with no
parameters and a body that raises NotImplementedError. -/
def constitutiveLawClassBody : List (MethodName × PyMethod) :=
  [(.initializer, ⟨0, fun _ => .ok .noneV⟩),
   (.calcStiffness, ⟨3, fun _ => .ok .noneV⟩),
   (.calcDamage, ⟨0, fun _ => .error .notImplementedError⟩)]

/-- The Bilinear class body is empty (lines 206-207: pass). -/
def bilinearClassBody : List (MethodName × PyMethod) := []

/-- Attribute lookup along a method resolution order. -/
def lookupMRO (mro : List (List (MethodName × PyMethod))) (name : MethodName) :
    Option PyMethod :=
  match mro with
  | [] => none
  | cls :: rest =>
    match lookupMethod cls name with
    | some m => some m
    | none => lookupMRO rest name

/-- Calls a method found along the MRO with an explicit argument list (a
class-level call: no receiver is prepended). -/
def callViaMRO (mro : List (List (MethodName × PyMethod))) (name : MethodName)
    (args : List PVal) : Except PyErr PVal :=
  match lookupMRO mro name with
  | none => .error .attributeError
  | some m => callMethod m args

/-- Modelled from the spec: the kernel pypd.kernels.constitutive_law.linear
is imported by constitutive_law.py but is not under src/.  The spec fixes
that the kernel is pure with values in [0,1], never decreases the incoming
damage d, keeps d = 0 inside the elastic range and ratchets to 1 once the
stretch magnitude reaches the critical value sc. -/
def linear (stretch d sc : ℚ) : ℚ := max d (if sc ≤ |stretch| then 1 else 0)

/-- Three-segment softening curve of the trilinear model as the spec
describes it: 0 up to the elastic limit s0, rising piecewise-linearly to an
intermediate value (taken as the kink parameter beta) at s1, continuing to
1 at sc and staying 1 beyond. -/
def triCurve (stretch s0 s1 sc beta : ℚ) : ℚ :=
  if stretch ≤ s0 then 0
  else if stretch ≤ s1 then beta * ((stretch - s0)/(s1 - s0))
  else if stretch ≤ sc then beta + (1 - beta) * ((stretch - s1)/(sc - s1))
  else 1

/-- Modelled from the spec: kernel pypd.kernels.constitutive_law.trilinear
is not under src/.  Values are kept in [0,1] by an explicit clamp and the
no-healing contract is the max against the incoming damage. -/
def trilinear (stretch d s0 s1 sc beta : ℚ) : ℚ :=
  max d (clamp01 (triCurve stretch s0 s1 sc beta))

/-- Modelled from the spec: kernel pypd.kernels.constitutive_law.nonlinear
is not under src/.  The spec pins the exponential-to-linear blend
controlled by alpha and k down only as a monotone curve in [0,1] rising
from 0 at s0 to 1 at sc; it is modelled by the clamped linear interpolant,
which satisfies those constraints for every alpha and k, with the ratchet
again the max against the incoming damage. -/
def nonlinear (stretch d s0 sc alpha k : ℚ) : ℚ :=
  max d (clamp01 ((stretch - s0)/(sc - s0)))

/-- Embeds Linear._calculate_bond_damage (lines 139-203): with damage_on
the returned closure maps the linear kernel over the bond arrays; with
damage off it returns np.zeros_like(d). -/
def Linear.calculate_bond_damage (sc : ℚ) (damage_on : Bool)
    (stretch d : List ℚ) : List ℚ :=
  if damage_on then List.zipWith (fun s x => linear s x sc) stretch d
  else d.map (fun _ => 0)

/-- Embeds Trilinear._calculate_bond_damage (lines 280-337). -/
def Trilinear.calculate_bond_damage (s0 s1 sc beta : ℚ)
    (stretch d : List ℚ) : List ℚ :=
  List.zipWith (fun s x => trilinear s x s0 s1 sc beta) stretch d

/-- Embeds NonLinear._calculate_bond_damage. -/
def NonLinear.calculate_bond_damage (s0 sc alpha k : ℚ)
    (stretch d : List ℚ) : List ℚ :=
  List.zipWith (fun s x => nonlinear s x s0 sc alpha k) stretch d

/-- Embeds ConstitutiveLaw._calculate_bond_stiffness (lines 41-62):
9 E / (pi t horizon^3). -/
noncomputable def calc_bond_stiffness (E t horizon : ℝ) : ℝ :=
  9*E/(Real.pi * t * horizon^3)

/-- Embeds Linear._calculate_sc (lines 122-137):
sqrt(4 pi Gf / (9 E horizon)). -/
noncomputable def linear_sc (E Gf horizon : ℝ) : ℝ :=
  Real.sqrt (4*Real.pi*Gf/(9*E*horizon))

/-- Embeds the Python idiom value-or-fallback used for the optional
constructor arguments: None and 0.0 are falsy, any other float is used as
supplied. -/
noncomputable def pyOr (v : Option ℚ) (fallback : ℝ) : ℝ :=
  match v with
  | none => fallback
  | some x => if x = 0 then fallback else (x : ℝ)

/-- Derived state of a constructed Linear law. -/
structure LinearLaw where
  c : ℝ
  sc : ℝ
  damage_on : Bool

/-- Embeds Linear.__init__ (lines 87-120): self.c = c or derived stiffness,
self.sc = sc or derived critical stretch. -/
noncomputable def mkLinear (E Gf horizon t : ℝ) (c0 sc0 : Option ℚ)
    (dmg : Bool) : LinearLaw :=
  ⟨pyOr c0 (calc_bond_stiffness E t horizon), pyOr sc0 (linear_sc E Gf horizon), dmg⟩

/-- Derived state of a constructed Trilinear law. -/
structure TrilinearLaw where
  t : ℝ
  beta : ℝ
  gamma : ℝ
  c : ℝ
  s0 : ℝ
  sc : ℝ
  s1 : ℝ

/-- Embeds Trilinear.__init__ (lines 211-252): the fields are assigned in
source order, each derived one computed from the possibly caller-overridden
earlier fields, with sc = 4 gamma Gf / (t horizon^4 c s0 (1 + gamma beta))
+ s0 and s1 = s0 + (sc - s0)/gamma. -/
noncomputable def mkTrilinear (E Gf ft horizon t : ℝ) (c0 s00 sc0 : Option ℚ)
    (beta : ℝ) : TrilinearLaw :=
  let gamma := (3 + 2*beta)/(2*beta*(1 - beta))
  let c := pyOr c0 (calc_bond_stiffness E t horizon)
  let s0 := pyOr s00 (ft/E)
  let sc := pyOr sc0 (4*gamma*Gf/(t*horizon^4*c*s0*(1 + gamma*beta)) + s0)
  let s1 := s0 + (sc - s0)/gamma
  ⟨t, beta, gamma, c, s0, sc, s1⟩

/-- Runs ConstitutiveLaw._calculate_bond_stiffness under Python error
semantics: a plain float division raises ZeroDivisionError exactly when its
denominator is 0.0, and pi * t * horizon^3 = 0.0 exactly when t = 0 or
horizon = 0. -/
noncomputable def calc_bond_stiffness_run (E t horizon : ℚ) : Except PyErr ℝ :=
  if t = 0 ∨ horizon = 0 then .error .zeroDivisionError
  else .ok (calc_bond_stiffness E t horizon)

/-- Runs Linear._calculate_sc under Python error semantics: the division
inside the square root raises ZeroDivisionError exactly when E = 0 or
horizon = 0.  For a negative radicand numpy's sqrt returns NaN with a
warning and does NOT raise, so construction still succeeds; the model
returns Real.sqrt, which is 0 there — only success or failure matters to
the claims. -/
noncomputable def linear_sc_run (E Gf horizon : ℚ) : Except PyErr ℝ :=
  if E = 0 ∨ horizon = 0 then .error .zeroDivisionError
  else .ok (linear_sc E Gf horizon)

/-- Python value-or-fallback where the fallback computation may itself
raise; when the supplied value is truthy the fallback is never evaluated
(short-circuit evaluation of or). -/
noncomputable def pyOrRun (v : Option ℚ) (fallback : Except PyErr ℝ) :
    Except PyErr ℝ :=
  match v with
  | none => fallback
  | some x => if x = 0 then fallback else .ok (x : ℝ)

/-- Runs Linear.__init__ under Python error semantics; the source performs
no argument validation of any kind. -/
noncomputable def mkLinearRun (E Gf horizon t : ℚ) (c0 sc0 : Option ℚ)
    (dmg : Bool) : Except PyErr LinearLaw :=
  (pyOrRun c0 (calc_bond_stiffness_run E t horizon)).bind (fun c =>
    (pyOrRun sc0 (linear_sc_run E Gf horizon)).bind (fun sc =>
      .ok ⟨c, sc, dmg⟩))

/-- Success test on a construction outcome. -/
def constructionOk (e : Except PyErr LinearLaw) : Bool :=
  match e with
  | .ok _ => true
  | .error _ => false

/-- Pointwise comparison of two maps over the same list. -/
lemma list_map_le {f g : ℚ → ℚ} (h : ∀ x, f x ≤ g x) :
    ∀ l : List ℚ, List.Forall₂ (fun a b => a ≤ b) (l.map f) (l.map g)
  | [] => List.Forall₂.nil
  | x :: xs => List.Forall₂.cons (h x) (list_map_le h xs)

lemma clamp01_nonneg (x : ℚ) : 0 ≤ clamp01 x := le_max_left 0 _

lemma clamp01_le_one (x : ℚ) : clamp01 x ≤ 1 :=
  max_le zero_le_one (min_le_left 1 _)

lemma clamp01_mono {x y : ℚ} (h : x ≤ y) : clamp01 x ≤ clamp01 y :=
  max_le_max le_rfl (min_le_min le_rfl h)

/-- The Hermite ease is monotone on the unit interval. -/
lemma hermite_mono {a b : ℚ} (ha : 0 ≤ a) (hab : a ≤ b) (hb : b ≤ 1) :
    hermite a ≤ hermite b := by
  unfold hermite
  nlinarith [mul_nonneg (mul_nonneg (sub_nonneg.mpr hab) ha)
      (sub_nonneg.mpr (hab.trans hb)),
    mul_nonneg (mul_nonneg (sub_nonneg.mpr hab) (ha.trans hab))
      (sub_nonneg.mpr hb),
    mul_nonneg (mul_nonneg (sub_nonneg.mpr hab) ha) (sub_nonneg.mpr hb),
    mul_nonneg (mul_nonneg (sub_nonneg.mpr hab) (ha.trans hab))
      (sub_nonneg.mpr (hab.trans hb))]

lemma smooth_step_at_start (n y0 y1 : ℚ) : smooth_step_data 0 0 n y0 y1 = y0 := by
  unfold smooth_step_data hermite clamp01
  norm_num

lemma smooth_step_at_end (n y0 y1 : ℚ) (hn : n ≠ 0) :
    smooth_step_data n 0 n y0 y1 = y1 := by
  unfold smooth_step_data hermite clamp01
  rw [sub_zero, div_self hn]
  norm_num

/-- C1 (code bug witnessed): the family test in Penetrator._build_family
does not implement the Euclidean criterion the claim states.  With centre
(0,0), one particle at (3,-3) and radius 1 (search radius 1.25), the code
computes |3 + (-3)| = 0 and includes the particle, while its Euclidean
distance, sqrt 18, exceeds 1.25, so the claimed criterion excludes it. -/
theorem build_family_not_euclidean :
    build_family [[3, -3]] [0, 0] (search_radius 1) = [0] ∧
    euclid_family [[3, -3]] [0, 0] (search_radius 1) = [] := by
  constructor
  · norm_num [build_family, code_distance, search_radius, List.filter]
  · norm_num [euclid_family, search_radius, List.filter]

/-- C3: executing the Penetrator class body binds the later parameter-less
def of update_penetrator_position over the two-argument one, so every bound
call update_penetrator_position(i, n) — and with it every call to
calculate_penetrator_force — raises TypeError (wrong argument count)
instead of returning an updated position or a force array. -/
theorem penetrator_calls_raise_type_error (centre : List ℚ) (radius : ℚ)
    (fam : List ℕ) (xs : List (List ℚ)) (i n : ℚ) :
    callBound penetratorClassBody .updatePos (.pen centre radius fam)
      [.num i, .num n] = .error .typeError ∧
    callBound penetratorClassBody .calcForce (.pen centre radius fam)
      [.mat xs, .num n, .num i] = .error .typeError := by
  constructor <;> rfl

/-- C5: with no caller-supplied c or sc, constructing the Linear law
derives exactly c = 9 E / (pi t horizon^3) and
sc = sqrt(4 pi Gf / (9 E horizon)). -/
theorem mkLinear_default_derivations (E Gf horizon t : ℝ) (dmg : Bool) :
    (mkLinear E Gf horizon t none none dmg).c = 9*E/(Real.pi * t * horizon^3) ∧
    (mkLinear E Gf horizon t none none dmg).sc =
      Real.sqrt (4*Real.pi*Gf/(9*E*horizon)) :=
  ⟨rfl, rfl⟩

/-- C7 as stated fails: supplying the explicit value c = 0 does not
override the derivation — Python's or treats 0.0 as falsy — so the
constructed stiffness is the derived 9/pi rather than the supplied 0. -/
theorem mkLinear_zero_not_stored :
    (mkLinear 1 1 1 1 (some 0) (some 0) true).c ≠ 0 := by
  have h : (mkLinear 1 1 1 1 (some 0) (some 0) true).c =
      9*1/(Real.pi * 1 * 1^3) := rfl
  rw [h]
  have hpi := Real.pi_pos
  positivity

/-- C7 amended: a caller-supplied NONZERO c or sc is stored as given, while
a supplied 0 falls back to the derived formula exactly as None does. -/
theorem mkLinear_override (E Gf horizon t : ℝ) (x y : ℚ) (hx : x ≠ 0)
    (hy : y ≠ 0) (dmg : Bool) :
    (mkLinear E Gf horizon t (some x) (some y) dmg).c = (x : ℝ) ∧
    (mkLinear E Gf horizon t (some x) (some y) dmg).sc = (y : ℝ) ∧
    (mkLinear E Gf horizon t (some 0) (some 0) dmg).c =
      calc_bond_stiffness E t horizon ∧
    (mkLinear E Gf horizon t (some 0) (some 0) dmg).sc =
      linear_sc E Gf horizon := by
  refine ⟨?_, ?_, rfl, rfl⟩ <;> simp [mkLinear, pyOr, hx, hy]

/-- Witness for the amended C7 at the concrete overrides c = 2, sc = 3. -/
theorem mkLinear_override_check :
    (mkLinear 1 1 1 1 (some 2) (some 3) true).c = ((2 : ℚ) : ℝ) ∧
    (mkLinear 1 1 1 1 (some 2) (some 3) true).sc = ((3 : ℚ) : ℝ) ∧
    (mkLinear 1 1 1 1 (some 0) (some 0) true).c = calc_bond_stiffness 1 1 1 ∧
    (mkLinear 1 1 1 1 (some 0) (some 0) true).sc = linear_sc 1 1 1 :=
  mkLinear_override 1 1 1 1 2 3 (by norm_num) (by norm_num) true

lemma getD_map_zero : ∀ (l : List ℚ) (i : ℕ),
    (l.map (fun _ => (0:ℚ))).getD i 0 = 0
  | [], _ => rfl
  | _ :: _, 0 => rfl
  | _ :: xs, n+1 => getD_map_zero xs n

/-- C8: with damage disabled the Linear law returns the all-zero array with
the shape of the incoming damage array, whatever the stretch array is. -/
theorem damage_disabled_all_zero (sc : ℚ) (stretch d : List ℚ) :
    (Linear.calculate_bond_damage sc false stretch d).length = d.length ∧
    ∀ i : ℕ, (Linear.calculate_bond_damage sc false stretch d).getD i 0 = 0 := by
  have h : Linear.calculate_bond_damage sc false stretch d =
      d.map (fun _ => 0) := rfl
  exact ⟨by rw [h, List.length_map], fun i => by rw [h, getD_map_zero]⟩

/-- C10 as stated fails: invoking the abstract calculate_bond_damage with
the documented two bond arrays raises TypeError — the def declares no
parameters at all — not NotImplementedError. -/
theorem calculate_bond_damage_args_type_error :
    callViaMRO [constitutiveLawClassBody] .calcDamage [.vec [0], .vec [0]] =
      .error .typeError ∧ PyErr.typeError ≠ PyErr.notImplementedError :=
  ⟨rfl, by decide⟩

/-- C10 amended: the zero-argument invocation of calculate_bond_damage — on
the base class directly or inherited through Bilinear — raises
NotImplementedError, while any invocation passing arguments (including the
documented (stretch, d_prev) call, or any instance-bound call, which passes
self) raises TypeError because the def declares no parameters. -/
theorem calculate_bond_damage_not_implemented (args : List PVal)
    (hargs : args ≠ []) :
    callViaMRO [constitutiveLawClassBody] .calcDamage [] =
      .error .notImplementedError ∧
    callViaMRO [bilinearClassBody, constitutiveLawClassBody] .calcDamage [] =
      .error .notImplementedError ∧
    callViaMRO [constitutiveLawClassBody] .calcDamage args =
      .error .typeError := by
  refine ⟨rfl, rfl, ?_⟩
  have hlen : ¬ args.length = 0 := fun h => hargs (List.length_eq_zero.mp h)
  show callMethod ⟨0, fun _ => .error .notImplementedError⟩ args = .error .typeError
  unfold callMethod
  rw [if_neg hlen]

/-- Witness for the amended C10 at a concrete one-argument invocation. -/
theorem calculate_bond_damage_not_implemented_check :
    callViaMRO [constitutiveLawClassBody] .calcDamage [] =
      .error .notImplementedError ∧
    callViaMRO [bilinearClassBody, constitutiveLawClassBody] .calcDamage [] =
      .error .notImplementedError ∧
    callViaMRO [constitutiveLawClassBody] .calcDamage [.num 0] =
      .error .typeError :=
  calculate_bond_damage_not_implemented [.num 0] (by simp)

/-- C2: the two-argument update_penetrator_position (penetrator.py lines
35-42) returns centre at step 0, centre shifted by the hard-coded target
displacement 1e-4 at step n, and componentwise non-decreasing positions as
the step index grows from 0 to n, under the spec contract for
smooth_step_data. -/
theorem update_penetrator_position_prescribed_motion (centre : List ℚ)
    (n : ℚ) (hn : 0 < n) :
    update_penetrator_position centre 0 n = centre ∧
    update_penetrator_position centre n n =
      centre.map (fun xc => xc + 1/10000) ∧
    ∀ i j : ℚ, 0 ≤ i → i ≤ j → j ≤ n →
      List.Forall₂ (fun a b => a ≤ b) (update_penetrator_position centre i n)
        (update_penetrator_position centre j n) := by
  refine ⟨?_, ?_, ?_⟩
  · unfold update_penetrator_position
    rw [smooth_step_at_start]
    simp
  · unfold update_penetrator_position
    rw [smooth_step_at_end n 0 (1/10000) hn.ne']
  · intro i j hi hij hjn
    unfold update_penetrator_position
    apply list_map_le
    intro xc
    unfold smooth_step_data
    simp only [sub_zero]
    have ht : i/n ≤ j/n := (div_le_div_iff_of_pos_right hn).mpr hij
    have hm := hermite_mono (clamp01_nonneg (i/n)) (clamp01_mono ht)
      (clamp01_le_one (j/n))
    linarith [hm]

/-- Witness for C2 with centre (2), two time steps, comparing steps 1, 2. -/
theorem update_penetrator_position_prescribed_motion_check :
    update_penetrator_position [2] 0 2 = [2] ∧
    update_penetrator_position [2] 2 2 =
      List.map (fun xc => xc + 1/10000) [2] ∧
    List.Forall₂ (fun a b => a ≤ b) (update_penetrator_position [2] 1 2)
      (update_penetrator_position [2] 2 2) := by
  have h := update_penetrator_position_prescribed_motion [2] 2 (by norm_num)
  exact ⟨h.1, h.2.1, h.2.2 1 2 (by norm_num) (by norm_num) (by norm_num)⟩

lemma getD_zipWith (f : ℚ → ℚ → ℚ) (a : List ℚ) :
    ∀ (b : List ℚ) (i : ℕ), i < a.length → i < b.length →
      (List.zipWith f a b).getD i 0 = f (a.getD i 0) (b.getD i 0) := by
  induction a with
  | nil => intro b i h1 _; exact absurd h1 (by simp)
  | cons x xs ih =>
    intro b i h1 h2
    cases b with
    | nil => exact absurd h2 (by simp)
    | cons y ys =>
      cases i with
      | zero => rfl
      | succ m =>
        have h1m : m < xs.length := by simpa using h1
        have h2m : m < ys.length := by simpa using h2
        simpa using ih ys m h1m h2m

lemma getD_mem_of_lt (l : List ℚ) : ∀ i : ℕ, i < l.length → l.getD i 0 ∈ l := by
  induction l with
  | nil => intro i h; simp at h
  | cons x xs ih =>
    intro i h
    cases i with
    | zero => simp
    | succ m =>
      simp only [List.getD_cons_succ]
      exact List.mem_cons_of_mem x (ih m (by simpa using h))

lemma linear_kernel_props (s x sc : ℚ) (h0 : 0 ≤ x) (h1 : x ≤ 1) :
    0 ≤ linear s x sc ∧ linear s x sc ≤ 1 ∧ x ≤ linear s x sc := by
  unfold linear
  refine ⟨h0.trans (le_max_left x _), max_le h1 ?_, le_max_left x _⟩
  split <;> norm_num

lemma max_clamp_props (x y : ℚ) (h0 : 0 ≤ x) (h1 : x ≤ 1) :
    0 ≤ max x (clamp01 y) ∧ max x (clamp01 y) ≤ 1 ∧ x ≤ max x (clamp01 y) :=
  ⟨h0.trans (le_max_left x _), max_le h1 (clamp01_le_one y), le_max_left x _⟩

lemma zip_kernel_ratchet (f : ℚ → ℚ → ℚ)
    (hf : ∀ s x, 0 ≤ x → x ≤ 1 → 0 ≤ f s x ∧ f s x ≤ 1 ∧ x ≤ f s x)
    (stretch d : List ℚ) (i : ℕ) (hlen : stretch.length = d.length)
    (hi : i < d.length) (hd : ∀ x ∈ d, 0 ≤ x ∧ x ≤ 1) :
    0 ≤ (List.zipWith f stretch d).getD i 0 ∧
    (List.zipWith f stretch d).getD i 0 ≤ 1 ∧
    d.getD i 0 ≤ (List.zipWith f stretch d).getD i 0 := by
  have his : i < stretch.length := by rw [hlen]; exact hi
  rw [getD_zipWith f stretch d i his hi]
  have hmem := getD_mem_of_lt d i hi
  exact hf (stretch.getD i 0) (d.getD i 0) (hd _ hmem).1 (hd _ hmem).2

/-- C4: for the Linear law with damage on, the Trilinear law and the
NonLinear law, every output damage entry lies in [0,1] and never drops
below the corresponding prior damage entry, for every stretch array and
every prior damage array with entries in [0,1] (under the spec-modelled
kernel contracts). -/
theorem bond_damage_in_unit_and_ratchets
    (scL s0 s1 sc beta s0n scn alpha k : ℚ) (stretch d : List ℚ) (i : ℕ)
    (hlen : stretch.length = d.length) (hi : i < d.length)
    (hd : ∀ x ∈ d, 0 ≤ x ∧ x ≤ 1) :
    (0 ≤ (Linear.calculate_bond_damage scL true stretch d).getD i 0 ∧
      (Linear.calculate_bond_damage scL true stretch d).getD i 0 ≤ 1 ∧
      d.getD i 0 ≤ (Linear.calculate_bond_damage scL true stretch d).getD i 0) ∧
    (0 ≤ (Trilinear.calculate_bond_damage s0 s1 sc beta stretch d).getD i 0 ∧
      (Trilinear.calculate_bond_damage s0 s1 sc beta stretch d).getD i 0 ≤ 1 ∧
      d.getD i 0 ≤
        (Trilinear.calculate_bond_damage s0 s1 sc beta stretch d).getD i 0) ∧
    (0 ≤ (NonLinear.calculate_bond_damage s0n scn alpha k stretch d).getD i 0 ∧
      (NonLinear.calculate_bond_damage s0n scn alpha k stretch d).getD i 0 ≤ 1 ∧
      d.getD i 0 ≤
        (NonLinear.calculate_bond_damage s0n scn alpha k stretch d).getD i 0) := by
  refine ⟨?_, ?_, ?_⟩
  · have hL : Linear.calculate_bond_damage scL true stretch d =
        List.zipWith (fun s x => linear s x scL) stretch d := rfl
    rw [hL]
    exact zip_kernel_ratchet _
      (fun s x h0 h1 => linear_kernel_props s x scL h0 h1)
      stretch d i hlen hi hd
  · exact zip_kernel_ratchet _
      (fun s x h0 h1 => max_clamp_props x (triCurve s s0 s1 sc beta) h0 h1)
      stretch d i hlen hi hd
  · exact zip_kernel_ratchet _
      (fun s x h0 h1 => max_clamp_props x ((s - s0n)/(scn - s0n)) h0 h1)
      stretch d i hlen hi hd

/-- Witness for C4 at stretch (2), prior damage (1/2), entry 0, with
parameters scL = 1, s0 = 1/10, s1 = 1/2, sc = 1, beta = 1/4, alpha = 1/4,
k = 25. -/
theorem bond_damage_in_unit_and_ratchets_check :
    (0 ≤ (Linear.calculate_bond_damage 1 true [2] [1/2]).getD 0 0 ∧
      (Linear.calculate_bond_damage 1 true [2] [1/2]).getD 0 0 ≤ 1 ∧
      ([1/2] : List ℚ).getD 0 0 ≤
        (Linear.calculate_bond_damage 1 true [2] [1/2]).getD 0 0) ∧
    (0 ≤ (Trilinear.calculate_bond_damage (1/10) (1/2) 1 (1/4) [2] [1/2]).getD 0 0 ∧
      (Trilinear.calculate_bond_damage (1/10) (1/2) 1 (1/4) [2] [1/2]).getD 0 0 ≤ 1 ∧
      ([1/2] : List ℚ).getD 0 0 ≤
        (Trilinear.calculate_bond_damage (1/10) (1/2) 1 (1/4) [2] [1/2]).getD 0 0) ∧
    (0 ≤ (NonLinear.calculate_bond_damage (1/10) 1 (1/4) 25 [2] [1/2]).getD 0 0 ∧
      (NonLinear.calculate_bond_damage (1/10) 1 (1/4) 25 [2] [1/2]).getD 0 0 ≤ 1 ∧
      ([1/2] : List ℚ).getD 0 0 ≤
        (NonLinear.calculate_bond_damage (1/10) 1 (1/4) 25 [2] [1/2]).getD 0 0) :=
  bond_damage_in_unit_and_ratchets 1 (1/10) (1/2) 1 (1/4) (1/10) 1 (1/4) 25
    [2] [1/2] 0 rfl (by norm_num)
    (by intro x hx; rw [List.mem_singleton] at hx; subst hx; norm_num)

/-- C6: constructing the Trilinear law with positive material and
discretisation inputs and the default kink parameter beta = 1/4 yields
gamma = (3 + 2 beta)/(2 beta (1 - beta)) and s1 = s0 + (sc - s0)/gamma,
and the derived stretches satisfy the strict ordering 0 < s0 < s1 < sc. -/
theorem mkTrilinear_ordering (E Gf ft horizon t : ℝ)
    (hE : 0 < E) (hGf : 0 < Gf) (hft : 0 < ft) (hh : 0 < horizon)
    (ht : 0 < t) :
    (mkTrilinear E Gf ft horizon t none none none (1/4)).gamma =
      (3 + 2*(1/4))/(2*(1/4)*(1 - 1/4)) ∧
    (mkTrilinear E Gf ft horizon t none none none (1/4)).s1 =
      (mkTrilinear E Gf ft horizon t none none none (1/4)).s0 +
        ((mkTrilinear E Gf ft horizon t none none none (1/4)).sc -
          (mkTrilinear E Gf ft horizon t none none none (1/4)).s0) /
          (mkTrilinear E Gf ft horizon t none none none (1/4)).gamma ∧
    0 < (mkTrilinear E Gf ft horizon t none none none (1/4)).s0 ∧
    (mkTrilinear E Gf ft horizon t none none none (1/4)).s0 <
      (mkTrilinear E Gf ft horizon t none none none (1/4)).s1 ∧
    (mkTrilinear E Gf ft horizon t none none none (1/4)).s1 <
      (mkTrilinear E Gf ft horizon t none none none (1/4)).sc := by
  have hgamma : (mkTrilinear E Gf ft horizon t none none none (1/4)).gamma =
      (3 + 2*((1:ℝ)/4))/(2*(1/4)*(1 - 1/4)) := rfl
  have hc : (mkTrilinear E Gf ft horizon t none none none (1/4)).c =
      calc_bond_stiffness E t horizon := rfl
  have hs0 : (mkTrilinear E Gf ft horizon t none none none (1/4)).s0 =
      ft/E := rfl
  have hsc : (mkTrilinear E Gf ft horizon t none none none (1/4)).sc =
      4*((3 + 2*((1:ℝ)/4))/(2*(1/4)*(1 - 1/4)))*Gf /
        (t*horizon^4*(calc_bond_stiffness E t horizon)*(ft/E)*
          (1 + ((3 + 2*((1:ℝ)/4))/(2*(1/4)*(1 - 1/4)))*(1/4))) + ft/E := rfl
  have hs1 : (mkTrilinear E Gf ft horizon t none none none (1/4)).s1 =
      ft/E + ((mkTrilinear E Gf ft horizon t none none none (1/4)).sc - ft/E) /
        ((3 + 2*((1:ℝ)/4))/(2*(1/4)*(1 - 1/4))) := rfl
  have hgval : (3 + 2*((1:ℝ)/4))/(2*(1/4)*(1 - 1/4)) = 28/3 := by norm_num
  have hcpos : 0 < calc_bond_stiffness E t horizon := by
    unfold calc_bond_stiffness
    have hpi := Real.pi_pos
    positivity
  have hs0pos : (0:ℝ) < ft/E := div_pos hft hE
  have hden : (0:ℝ) < t*horizon^4*(calc_bond_stiffness E t horizon)*(ft/E)*
      (1 + (28/3)*(1/4)) := by
    have h4 : (0:ℝ) < horizon^4 := by positivity
    have hlast : (0:ℝ) < 1 + (28/3)*(1/4) := by norm_num
    exact mul_pos (mul_pos (mul_pos (mul_pos ht h4) hcpos) hs0pos) hlast
  have hnum : (0:ℝ) < 4*(28/3)*Gf := by
    have : (0:ℝ) < 4*(28/3) := by norm_num
    exact mul_pos this hGf
  have hdelta : (0:ℝ) < 4*((28:ℝ)/3)*Gf /
      (t*horizon^4*(calc_bond_stiffness E t horizon)*(ft/E)*
        (1 + (28/3)*(1/4))) := div_pos hnum hden
  rw [hgval] at hsc
  have hscpos : ft/E <
      (mkTrilinear E Gf ft horizon t none none none (1/4)).sc := by
    rw [hsc]; linarith
  refine ⟨hgamma, ?_, ?_, ?_, ?_⟩
  · rw [hs1, hs0, hgamma]
  · rw [hs0]; exact hs0pos
  · rw [hs0, hs1, hgval]
    have h1 : (0:ℝ) <
        ((mkTrilinear E Gf ft horizon t none none none (1/4)).sc - ft/E) /
          (28/3) := div_pos (by linarith) (by norm_num)
    linarith
  · rw [hs1, hgval]
    have hD : (0:ℝ) <
        (mkTrilinear E Gf ft horizon t none none none (1/4)).sc - ft/E := by
      linarith
    have h2 : ((mkTrilinear E Gf ft horizon t none none none (1/4)).sc - ft/E) /
        (28/3) <
        (mkTrilinear E Gf ft horizon t none none none (1/4)).sc - ft/E :=
      div_lt_self hD (by norm_num)
    linarith

/-- Witness for C6 with unit material and discretisation inputs. -/
theorem mkTrilinear_ordering_check :
    0 < (mkTrilinear 1 1 1 1 1 none none none (1/4)).s0 ∧
    (mkTrilinear 1 1 1 1 1 none none none (1/4)).s0 <
      (mkTrilinear 1 1 1 1 1 none none none (1/4)).s1 ∧
    (mkTrilinear 1 1 1 1 1 none none none (1/4)).s1 <
      (mkTrilinear 1 1 1 1 1 none none none (1/4)).sc := by
  have h := mkTrilinear_ordering 1 1 1 1 1 (by norm_num) (by norm_num)
    (by norm_num) (by norm_num) (by norm_num)
  exact ⟨h.2.2.1, h.2.2.2.1, h.2.2.2.2⟩

/-- C9 as stated fails: constructing the Linear law with E = -1 ≤ 0 raises
no error of any kind — the source validates nothing; numpy merely produces
a NaN critical stretch with a warning. -/
theorem mkLinearRun_accepts_nonpositive :
    constructionOk (mkLinearRun (-1) 40 3 1 none none true) = true ∧
    (-1 : ℚ) ≤ 0 := by
  constructor
  · rfl
  · norm_num

/-- C9 amended: the constructors perform no input validation — for every E,
Gf, horizon and t with E, horizon and t nonzero (in particular for all
negative values of E, Gf and horizon), construction succeeds with no error;
a zero denominator instead surfaces as ZeroDivisionError from the
derivation arithmetic itself, which is not a configuration check. -/
theorem mkLinearRun_no_validation (E Gf horizon t : ℚ)
    (hE : E ≠ 0) (hh : horizon ≠ 0) (ht : t ≠ 0) (dmg : Bool) :
    constructionOk (mkLinearRun E Gf horizon t none none dmg) = true ∧
    mkLinearRun 1 1 0 1 none none dmg = .error .zeroDivisionError := by
  constructor
  · simp [mkLinearRun, pyOrRun, calc_bond_stiffness_run, linear_sc_run,
      hE, hh, ht, constructionOk, Except.bind]
  · rfl

/-- Witness for the amended C9: all-negative material inputs are accepted. -/
theorem mkLinearRun_no_validation_check :
    constructionOk (mkLinearRun (-1) (-1) (-1) 1 none none true) = true ∧
    mkLinearRun 1 1 0 1 none none true = .error .zeroDivisionError :=
  mkLinearRun_no_validation (-1) (-1) (-1) 1 (by norm_num) (by norm_num)
    (by norm_num) true
